import Mathlib

/-!
Shallow embedding of `src/app.py` (real-time baggage processing system).

The embedding covers the three core components the specification names:

* TaskRegistry: the module-level dict `task_statuses` mapping a task id to
  its current status record, together with the HTTP status query
  (`get_status`, lines 152-158).
* SubscriberHub: the `ConnectionManager` class (lines 25-57) with its dict
  `active_connections` mapping a task id to the list of attached websockets,
  and the operations `connect`, `disconnect` and `broadcast_to_task`.
* StageRunner: the coroutine `simulate_baggage_processing` (lines 61-118)
  that initialises the record, advances it through the four processing
  stages with timed sleeps, completes it and finally evicts it after the
  300-second retention window.

Websockets are modelled as natural-number channel identifiers; a send to a
websocket fails exactly when a given predicate `dead` marks the channel as
closed (the Python `except:` branch in `broadcast_to_task`).  Timestamps are
naturals.  The floating-point expression `(stage / 4) * 100` of line 97 only
ever produces the exact values 0, 25, 50, 75, 100, so progress is embedded
as a rational.
-/

/-- Python: `PROCESSING_STAGES` (lines 17-23). -/
def PROCESSING_STAGES : List String :=
  ["Baggage Check-in", "Security Screening", "Baggage Sorting",
   "Loading onto Aircraft", "Processing Complete"]

/-- One entry of `task_statuses` (the dict built at lines 64-79).
`completion_time` is `none` until line 110 sets it. -/
structure TaskRecord where
  task_id : String
  stage : Nat
  stage_name : String
  progress : ℚ
  status : String
  start_time : Nat
  estimated_completion : Nat
  completion_time : Option Nat
  baggage_details : List (String × String)
  deriving Repr, DecidableEq

/-- The record installed at lines 64-79: stage 0, progress 0, status
"Processing", estimated completion two minutes after start, opaque
baggage-details payload. -/
def initRecord (tid : String) (now : Nat) (details : List (String × String)) :
    TaskRecord :=
  { task_id := tid
    stage := 0
    stage_name := PROCESSING_STAGES.getD 0 ""
    progress := 0
    status := "Processing"
    start_time := now
    estimated_completion := now + 120
    completion_time := none
    baggage_details := details }

/-- The per-stage mutation of lines 95-97: set the stage index, the derived
stage name and the derived progress percent `(stage / 4) * 100`. -/
def advanceStage (r : TaskRecord) (stage : Nat) : TaskRecord :=
  { r with
    stage := stage
    stage_name := PROCESSING_STAGES.getD stage ""
    progress := (stage : ℚ) / 4 * 100 }

/-- The completion mutation of lines 106-110: stage 4, progress pinned to
100, status "Completed", completion timestamp recorded. -/
def completeTask (r : TaskRecord) (ct : Nat) : TaskRecord :=
  { r with
    stage := 4
    stage_name := PROCESSING_STAGES.getD 4 ""
    progress := 100
    status := "Completed"
    completion_time := some ct }

/-- The state of the task record after `n` mutations by its stage runner:
mutation 0 is the initialisation (lines 64-79), mutations 1-4 are the loop
iterations `for stage in range(4)` (lines 93-97, advancing to stage
`n - 1`), mutation 5 is the completion block (lines 106-110).  The runner
performs no further mutation, so the state is absorbing from there on. -/
def stateAfter (tid : String) (now ct : Nat) (details : List (String × String)) :
    Nat → TaskRecord
  | 0 => initRecord tid now details
  | n + 1 =>
    if n < 4 then advanceStage (stateAfter tid now ct details n) n
    else if n = 4 then completeTask (stateAfter tid now ct details n) ct
    else stateAfter tid now ct details n

/-- The records broadcast for one task id, in program order: line 82 (the
initial status), line 100 for each of the four loop iterations, line 113
(the final status).  Each broadcast sends the record as it stands at that
point, i.e. `stateAfter n` for the n-th broadcast. -/
def broadcastRecords (tid : String) (now ct : Nat)
    (details : List (String × String)) : List TaskRecord :=
  (List.range 6).map (stateAfter tid now ct details)

/-! ## TaskRegistry: the `task_statuses` dict and the status query -/

/-- The registry `task_statuses` (line 13): a Python dict from task id to
status record, embedded as an association list. -/
abbrev Registry := List (String × TaskRecord)

/-- Dict lookup `task_statuses[tid]` / membership `tid in task_statuses`. -/
def regGet (reg : Registry) (tid : String) : Option TaskRecord :=
  match reg with
  | [] => none
  | (k, r) :: rest => if k = tid then some r else regGet rest tid

/-- `GET /status/{task_id}` (lines 152-158): 404 (`none`) when the id is not
in `task_statuses`, otherwise the current record. -/
def get_status (reg : Registry) (tid : String) : Option TaskRecord :=
  regGet reg tid

/-! ## SubscriberHub: the `ConnectionManager` class -/

/-- `ConnectionManager.active_connections` (line 28): a dict from task id to
the list of attached websocket channels, embedded as an association list.
Websockets are channel identifiers (`Nat`). -/
abbrev Hub := List (String × List Nat)

/-- Dict lookup / membership test on the hub. -/
def hubGet (h : Hub) (tid : String) : Option (List Nat) :=
  match h with
  | [] => none
  | (k, v) :: rest => if k = tid then some v else hubGet rest tid

/-- Dict assignment `active_connections[tid] = v` (insert or overwrite). -/
def hubSet (h : Hub) (tid : String) (v : List Nat) : Hub :=
  match h with
  | [] => [(tid, v)]
  | (k, w) :: rest => if k = tid then (k, v) :: rest else (k, w) :: hubSet rest tid v

/-- Dict deletion `del active_connections[tid]` (line 44). -/
def hubDel (h : Hub) (tid : String) : Hub :=
  match h with
  | [] => []
  | (k, w) :: rest => if k = tid then rest else (k, w) :: hubDel rest tid

/-- `ConnectionManager.connect` (lines 30-38): accept, create the entry when
absent, append the websocket, then send the current snapshot directly to the
new subscriber when `task_statuses` holds a record for the id.  Returns the
new hub and the list of records sent to the connecting websocket. -/
def connect (reg : Registry) (h : Hub) (tid : String) (ws : Nat) :
    Hub × List TaskRecord :=
  let h' := hubSet h tid ((hubGet h tid).getD [] ++ [ws])
  match regGet reg tid with
  | some r => (h', [r])
  | none => (h', [])

/-- Python `list.remove(x)`: delete the first occurrence of `x`, or raise
`ValueError` (`none`) when `x` is not in the list. -/
def listRemove (l : List Nat) (x : Nat) : Option (List Nat) :=
  match l with
  | [] => none
  | a :: rest => if a = x then some rest else (listRemove rest x).map (a :: ·)

/-- `ConnectionManager.disconnect` (lines 40-44): when the id has an entry,
`list.remove` the websocket (which raises `ValueError`, modelled as `none`,
when it is absent), then delete the entry when its list became empty.  When
the id has no entry the call is a no-op. -/
def disconnect (h : Hub) (tid : String) (ws : Nat) : Option Hub :=
  match hubGet h tid with
  | none => some h
  | some lst =>
    match listRemove lst ws with
    | none => none
    | some lst' => if lst' = [] then some (hubDel h tid) else some (hubSet h tid lst')

/-- The `for connection in self.active_connections[task_id]` loop of lines
52-57, with Python's list-iterator semantics made explicit: the iterator
keeps an index `i` into the list object being mutated; a successful send
advances the index, a failed send removes the connection from the list
(`list.remove`, first occurrence) and then advances the index, so the
element that slid into position `i` is never yielded.  `fuel` bounds the
iteration count; since every step increases `i` and never lengthens the
list, the loop exits within the initial list length, so starting the fuel
at `lst.length` reproduces the loop exactly (the fuel-0 branch returns the
same pair as the exit branch and is never the deciding case).  Returns the
final list and the connections actually sent to. -/
def broadcastLoop (dead : Nat → Bool) :
    Nat → List Nat → Nat → List Nat → List Nat × List Nat
  | 0, lst, _, delivered => (lst, delivered)
  | fuel + 1, lst, i, delivered =>
    if h : i < lst.length then
      let c := lst.get ⟨i, h⟩
      if dead c then broadcastLoop dead fuel (lst.erase c) (i + 1) delivered
      else broadcastLoop dead fuel lst (i + 1) (delivered ++ [c])
    else (lst, delivered)

/-- `ConnectionManager.broadcast_to_task` (lines 49-57): when the id has an
entry, iterate over its connection list sending the message, removing (in
place) every connection whose send raises.  `dead ws = true` models a send
to `ws` raising.  Returns the new hub and the list of websockets that
received the message. -/
def broadcast_to_task (dead : Nat → Bool) (h : Hub) (tid : String) :
    Hub × List Nat :=
  match hubGet h tid with
  | none => (h, [])
  | some lst =>
    let res := broadcastLoop dead lst.length lst 0 []
    (hubSet h tid res.1, res.2)

/-- The hub invariant of claim C9: every id present in the map has a
non-empty subscriber list. -/
def hubNonEmptyInv (h : Hub) : Prop :=
  ∀ p ∈ h, p.2 ≠ ([] : List Nat)

instance (h : Hub) : Decidable (hubNonEmptyInv h) :=
  inferInstanceAs (Decidable (∀ p ∈ h, p.2 ≠ ([] : List Nat)))

/-! ## StageRunner timeline: the record visible at each instant -/

/-- Post-completion retention: `await asyncio.sleep(300)` (line 116). -/
def RETENTION : Nat := 300

/-- Completion instant, relative to task start: the runner sleeps
`stage_times[k]` seconds after entering stage `k` (line 103), so completion
happens once all four sleeps have elapsed. -/
def completionTime (st0 st1 st2 st3 : Nat) : Nat := st0 + st1 + st2 + st3

/-- How many mutations the runner has performed by (relative) time `t`:
initialisation and the advance to stage 0 both happen at `t = 0` before the
first sleep; the advance to stage `k + 1` happens once the first `k + 1`
sleeps have elapsed; completion happens at `completionTime`. -/
def mutationsByTime (st0 st1 st2 st3 t : Nat) : Nat :=
  if t < st0 then 1
  else if t < st0 + st1 then 2
  else if t < st0 + st1 + st2 then 3
  else if t < st0 + st1 + st2 + st3 then 4
  else 5

/-- The registry entry for the task at (relative) time `t`: present, holding
the record as mutated so far, until the retention window past completion
elapses; `del task_statuses[task_id]` (lines 117-118) removes it at
`completionTime + RETENTION`. -/
def registryAt (tid : String) (now ct : Nat) (details : List (String × String))
    (st0 st1 st2 st3 t : Nat) : Option TaskRecord :=
  if t < completionTime st0 st1 st2 st3 + RETENTION then
    some (stateAfter tid now ct details (mutationsByTime st0 st1 st2 st3 t))
  else none

/-- The whole registry at (relative) time `t` for a run of a single task:
the one entry while it is live, empty after eviction. -/
def registryListAt (tid : String) (now ct : Nat)
    (details : List (String × String)) (st0 st1 st2 st3 t : Nat) : Registry :=
  match registryAt tid now ct details st0 st1 st2 st3 t with
  | some r => [(tid, r)]
  | none => []

example : (stateAfter "t" 0 90 [] 0).stage = 0 := by decide
example : (stateAfter "t" 0 90 [] 1).stage = 0 := by decide
example : (stateAfter "t" 0 90 [] 3).progress = 50 := by
  norm_num [stateAfter, advanceStage, initRecord]
example : (stateAfter "t" 0 90 [] 5).status = "Completed" := by decide
example : (stateAfter "t" 0 90 [] 9).progress = 100 := by
  norm_num [stateAfter, completeTask, advanceStage, initRecord]
example : (broadcastRecords "t" 0 90 []).map TaskRecord.stage
    = [0, 0, 1, 2, 3, 4] := by decide
example :
    broadcast_to_task (fun w => w == 1) [("t", [1, 2])] "t"
      = ([("t", [2])], []) := by decide
example :
    broadcast_to_task (fun w => w == 2) [("t", [1, 2])] "t"
      = ([("t", [1])], [1]) := by decide
example : disconnect [("t", [2])] "t" 1 = none := by decide
example : disconnect [("t", [2])] "t" 2 = some [] := by decide
example : get_status (registryListAt "t" 0 90 [] 20 25 20 25 100) "t"
      = some (stateAfter "t" 0 90 [] 5) := by decide
example : get_status (registryListAt "t" 0 90 [] 20 25 20 25 390) "t" = none := by
  decide

/-! ## Closed forms for the runner trace -/

/-- The stage index after `n` mutations is `min (n - 1) 4`. -/
theorem stage_stateAfter (tid : String) (now ct : Nat)
    (d : List (String × String)) :
    ∀ n, (stateAfter tid now ct d n).stage = min (n - 1) 4
  | 0 => by simp [stateAfter, initRecord]
  | n + 1 => by
    by_cases h4 : n < 4
    · simp only [stateAfter, if_pos h4, advanceStage]
      omega
    · by_cases h5 : n = 4
      · subst h5
        simp [stateAfter, completeTask]
      · have ih := stage_stateAfter tid now ct d n
        simp only [stateAfter, if_neg h4, if_neg h5]
        omega

/-- The progress percent after `n` mutations is the stage index times 25
(the exact value of `(stage / 4) * 100`). -/
theorem progress_stateAfter (tid : String) (now ct : Nat)
    (d : List (String × String)) :
    ∀ n, (stateAfter tid now ct d n).progress = ((min (n - 1) 4 : Nat) : ℚ) * 25
  | 0 => by simp [stateAfter, initRecord]
  | n + 1 => by
    by_cases h4 : n < 4
    · have hmin : min (n + 1 - 1) 4 = n := by omega
      simp only [stateAfter, if_pos h4, advanceStage, hmin]
      ring
    · by_cases h5 : n = 4
      · subst h5
        norm_num [stateAfter, completeTask]
      · have ih := progress_stateAfter tid now ct d n
        have hmin : min (n + 1 - 1) 4 = min (n - 1) 4 := by omega
        simp only [stateAfter, if_neg h4, if_neg h5, ih, hmin]

/-- The status after `n` mutations: "Processing" up to and including the
advance to the last processing stage, "Completed" from the completion
mutation on. -/
theorem status_stateAfter (tid : String) (now ct : Nat)
    (d : List (String × String)) :
    ∀ n, (stateAfter tid now ct d n).status
      = if n ≤ 4 then "Processing" else "Completed"
  | 0 => by simp [stateAfter, initRecord]
  | n + 1 => by
    by_cases h4 : n < 4
    · have ih := status_stateAfter tid now ct d n
      simp only [stateAfter, if_pos h4, advanceStage, ih]
      rw [if_pos (by omega : n ≤ 4), if_pos (by omega : n + 1 ≤ 4)]
    · by_cases h5 : n = 4
      · subst h5
        simp [stateAfter, completeTask]
      · have ih := status_stateAfter tid now ct d n
        simp only [stateAfter, if_neg h4, if_neg h5, ih]
        rw [if_neg (by omega : ¬ n ≤ 4), if_neg (by omega : ¬ n + 1 ≤ 4)]

/-- The fields set at creation and never assigned again by the runner. -/
theorem constant_fields_stateAfter (tid : String) (now ct : Nat)
    (d : List (String × String)) :
    ∀ n, (stateAfter tid now ct d n).task_id = tid ∧
      (stateAfter tid now ct d n).start_time = now ∧
      (stateAfter tid now ct d n).estimated_completion = now + 120 ∧
      (stateAfter tid now ct d n).baggage_details = d
  | 0 => by simp [stateAfter, initRecord]
  | n + 1 => by
    have ih := constant_fields_stateAfter tid now ct d n
    by_cases h4 : n < 4
    · simpa only [stateAfter, if_pos h4, advanceStage] using ih
    · by_cases h5 : n = 4
      · subst h5
        simpa only [stateAfter, completeTask] using ih
      · simpa only [stateAfter, if_neg h4, if_neg h5] using ih

/-! ## Hub lemmas -/

/-- Looking up a key just assigned returns the assigned value. -/
theorem hubGet_hubSet (h : Hub) (tid : String) (v : List Nat) :
    hubGet (hubSet h tid v) tid = some v := by
  induction h with
  | nil => simp [hubSet, hubGet]
  | cons p rest ih =>
    obtain ⟨k, w⟩ := p
    by_cases hk : k = tid
    · simp [hubSet, hubGet, hk]
    · simp [hubSet, hubGet, hk, ih]

/-- Assigning a non-empty list preserves the non-empty-sets invariant. -/
theorem hubNonEmptyInv_hubSet (h : Hub) (tid : String) (v : List Nat)
    (hinv : hubNonEmptyInv h) (hv : v ≠ []) :
    hubNonEmptyInv (hubSet h tid v) := by
  induction h with
  | nil =>
    intro p hp
    simp only [hubSet, List.mem_singleton] at hp
    subst hp
    exact hv
  | cons q rest ih =>
    obtain ⟨k, w⟩ := q
    have hw : w ≠ [] := hinv (k, w) (List.mem_cons_self _ _)
    have hrest : hubNonEmptyInv rest := fun p hp => hinv p (List.mem_cons_of_mem _ hp)
    intro p hp
    by_cases hk : k = tid
    · simp only [hubSet, if_pos hk, List.mem_cons] at hp
      rcases hp with rfl | hp
      · exact hv
      · exact hinv p (List.mem_cons_of_mem _ hp)
    · simp only [hubSet, if_neg hk, List.mem_cons] at hp
      rcases hp with rfl | hp
      · exact hw
      · exact ih hrest p hp

/-- Deleting an entry preserves the non-empty-sets invariant. -/
theorem hubNonEmptyInv_hubDel (h : Hub) (tid : String)
    (hinv : hubNonEmptyInv h) :
    hubNonEmptyInv (hubDel h tid) := by
  induction h with
  | nil => intro p hp; simp [hubDel] at hp
  | cons q rest ih =>
    obtain ⟨k, w⟩ := q
    have hrest : hubNonEmptyInv rest := fun p hp => hinv p (List.mem_cons_of_mem _ hp)
    intro p hp
    by_cases hk : k = tid
    · simp only [hubDel, if_pos hk] at hp
      exact hrest p hp
    · simp only [hubDel, if_neg hk, List.mem_cons] at hp
      rcases hp with rfl | hp
      · exact hinv (k, w) (List.mem_cons_self _ _)
      · exact ih hrest p hp

/-! ## Claim theorems -/

/-- Claim C1: over the whole runner trace, the stage index and the progress
percent are non-decreasing, the status transitions Processing to Completed
at most once (once "Completed" it stays "Completed") and every status is one
of the two. -/
theorem C1_runner_monotone (tid : String) (now ct : Nat)
    (d : List (String × String)) (m n : Nat) (hmn : m ≤ n) :
    (stateAfter tid now ct d m).stage ≤ (stateAfter tid now ct d n).stage ∧
    (stateAfter tid now ct d m).progress ≤ (stateAfter tid now ct d n).progress ∧
    ((stateAfter tid now ct d m).status = "Completed" →
      (stateAfter tid now ct d n).status = "Completed") ∧
    ((stateAfter tid now ct d n).status = "Processing" ∨
      (stateAfter tid now ct d n).status = "Completed") := by
  have hs := stage_stateAfter tid now ct d
  have hp := progress_stateAfter tid now ct d
  have hst := status_stateAfter tid now ct d
  refine ⟨?_, ?_, ?_, ?_⟩
  · rw [hs m, hs n]
    omega
  · rw [hp m, hp n]
    have hmono : min (m - 1) 4 ≤ min (n - 1) 4 := by omega
    have hq : ((min (m - 1) 4 : Nat) : ℚ) ≤ ((min (n - 1) 4 : Nat) : ℚ) := by
      exact_mod_cast hmono
    linarith
  · rw [hst m, hst n]
    intro hcm
    by_cases hm4 : m ≤ 4
    · rw [if_pos hm4] at hcm
      exact absurd hcm (by decide)
    · rw [if_neg (by omega : ¬ n ≤ 4)]
  · rw [hst n]
    by_cases hn4 : n ≤ 4
    · left; rw [if_pos hn4]
    · right; rw [if_neg hn4]

/-- Witness for C1 at the concrete trace points 1 and 5. -/
theorem C1_runner_monotone_witness :
    1 ≤ 5 ∧
      ((stateAfter "t" 0 90 [] 1).stage ≤ (stateAfter "t" 0 90 [] 5).stage ∧
       (stateAfter "t" 0 90 [] 1).progress ≤ (stateAfter "t" 0 90 [] 5).progress ∧
       ((stateAfter "t" 0 90 [] 1).status = "Completed" →
         (stateAfter "t" 0 90 [] 5).status = "Completed") ∧
       ((stateAfter "t" 0 90 [] 5).status = "Processing" ∨
         (stateAfter "t" 0 90 [] 5).status = "Completed")) :=
  ⟨by decide, C1_runner_monotone "t" 0 90 [] 1 5 (by decide)⟩

/-- Claim C4: the advance to stage `k` (`k < 4`) sets the progress percent
to `k / 4 * 100`, and the terminal mutation sets stage 4 and pins progress
to exactly 100. -/
theorem C4_progress_formula (tid : String) (now ct : Nat)
    (d : List (String × String)) (k : Nat) (hk : k < 4) :
    ((stateAfter tid now ct d (k + 1)).stage = k ∧
     (stateAfter tid now ct d (k + 1)).progress = (k : ℚ) / 4 * 100) ∧
    (stateAfter tid now ct d 5).stage = 4 ∧
    (stateAfter tid now ct d 5).progress = 100 := by
  refine ⟨⟨?_, ?_⟩, ?_, ?_⟩
  · simp [stateAfter, hk, advanceStage]
  · simp [stateAfter, hk, advanceStage]
  · norm_num [stateAfter, completeTask]
  · norm_num [stateAfter, completeTask]

/-- Witness for C4 at stage 2. -/
theorem C4_progress_formula_witness :
    2 < 4 ∧
      (((stateAfter "t" 0 90 [] (2 + 1)).stage = 2 ∧
        (stateAfter "t" 0 90 [] (2 + 1)).progress = (2 : ℚ) / 4 * 100) ∧
       (stateAfter "t" 0 90 [] 5).stage = 4 ∧
       (stateAfter "t" 0 90 [] 5).progress = 100) :=
  ⟨by decide, C4_progress_formula "t" 0 90 [] 2 (by decide)⟩

/-- Claim C10: the stage-advance and completion mutations leave the task id,
start time, estimated completion and baggage-details payload unchanged (and
the advance also leaves status and completion time unchanged); accordingly,
along the whole runner trace these fields keep their creation values. -/
theorem C10_frame (tid : String) (now ct : Nat) (d : List (String × String))
    (r : TaskRecord) (k n : Nat) :
    ((advanceStage r k).task_id = r.task_id ∧
     (advanceStage r k).start_time = r.start_time ∧
     (advanceStage r k).estimated_completion = r.estimated_completion ∧
     (advanceStage r k).baggage_details = r.baggage_details ∧
     (advanceStage r k).status = r.status ∧
     (advanceStage r k).completion_time = r.completion_time) ∧
    ((completeTask r ct).task_id = r.task_id ∧
     (completeTask r ct).start_time = r.start_time ∧
     (completeTask r ct).estimated_completion = r.estimated_completion ∧
     (completeTask r ct).baggage_details = r.baggage_details) ∧
    ((stateAfter tid now ct d n).task_id = tid ∧
     (stateAfter tid now ct d n).start_time = now ∧
     (stateAfter tid now ct d n).estimated_completion = now + 120 ∧
     (stateAfter tid now ct d n).baggage_details = d) := by
  refine ⟨⟨rfl, rfl, rfl, rfl, rfl, rfl⟩, ⟨rfl, rfl, rfl, rfl⟩, ?_⟩
  exact constant_fields_stateAfter tid now ct d n

/-- `mutationsByTime` is 5 from the completion instant on. -/
theorem mutationsByTime_of_complete (st0 st1 st2 st3 t : Nat)
    (hc : completionTime st0 st1 st2 st3 ≤ t) :
    mutationsByTime st0 st1 st2 st3 t = 5 := by
  unfold completionTime at hc
  unfold mutationsByTime
  split_ifs <;> omega

/-- Claim C3: from completion until the retention window elapses, the status
query returns the completed snapshot; once the window has elapsed the record
is evicted and the query returns not-found, exactly as it does for an id
that was never created. -/
theorem C3_retention_query (tid qid : String) (now ct : Nat)
    (d : List (String × String)) (st0 st1 st2 st3 t : Nat) :
    (completionTime st0 st1 st2 st3 ≤ t →
      t < completionTime st0 st1 st2 st3 + RETENTION →
      get_status (registryListAt tid now ct d st0 st1 st2 st3 t) tid
          = some (stateAfter tid now ct d 5) ∧
        (stateAfter tid now ct d 5).status = "Completed") ∧
    (completionTime st0 st1 st2 st3 + RETENTION ≤ t →
      get_status (registryListAt tid now ct d st0 st1 st2 st3 t) tid = none) ∧
    (qid ≠ tid →
      get_status (registryListAt tid now ct d st0 st1 st2 st3 t) qid = none) := by
  refine ⟨?_, ?_, ?_⟩
  · intro hc hret
    have hmut := mutationsByTime_of_complete st0 st1 st2 st3 t hc
    have hst := status_stateAfter tid now ct d 5
    rw [if_neg (by omega : ¬ (5 : Nat) ≤ 4)] at hst
    refine ⟨?_, hst⟩
    simp [registryListAt, registryAt, if_pos hret, hmut, get_status, regGet]
  · intro hret
    simp [registryListAt, registryAt, if_neg (by omega : ¬ t < completionTime st0 st1 st2 st3 + RETENTION),
      get_status, regGet]
  · intro hqid
    unfold registryListAt
    cases hra : registryAt tid now ct d st0 st1 st2 st3 t with
    | none => simp [get_status, regGet]
    | some r =>
      simp only [get_status, regGet]
      rw [if_neg fun hh => hqid hh.symm]

/-- Witness for C3: stage times 20, 25, 20, 25 (completion at 90); querying
at 100 returns the completed snapshot, querying at 390 returns not-found,
and a different id is never found. -/
theorem C3_retention_query_witness :
    ((completionTime 20 25 20 25 ≤ 100 ∧ 100 < completionTime 20 25 20 25 + RETENTION) ∧
      get_status (registryListAt "t" 0 90 [] 20 25 20 25 100) "t"
          = some (stateAfter "t" 0 90 [] 5) ∧
        (stateAfter "t" 0 90 [] 5).status = "Completed") ∧
    (completionTime 20 25 20 25 + RETENTION ≤ 390 ∧
      get_status (registryListAt "t" 0 90 [] 20 25 20 25 390) "t" = none) ∧
    (("u" : String) ≠ "t" ∧
      get_status (registryListAt "t" 0 90 [] 20 25 20 25 100) "u" = none) :=
  ⟨⟨⟨by decide, by decide⟩,
      (C3_retention_query "t" "u" 0 90 [] 20 25 20 25 100).1 (by decide) (by decide)⟩,
    ⟨by decide, (C3_retention_query "t" "u" 0 90 [] 20 25 20 25 390).2.1 (by decide)⟩,
    ⟨by decide, (C3_retention_query "t" "u" 0 90 [] 20 25 20 25 100).2.2 (by decide)⟩⟩

/-- Claim C8: the submission spawns the runner, whose first synchronous
segment (before its first suspension) registers the initial record, so a
status query at time 0 — immediately after submission, before the first
stage delay has elapsed — returns stage index 0 and status "Processing"
rather than not-found. -/
theorem C8_submit_then_query (tid : String) (now ct : Nat)
    (d : List (String × String)) (st0 st1 st2 st3 : Nat) (h0 : 0 < st0) :
    get_status (registryListAt tid now ct d st0 st1 st2 st3 0) tid
        = some (advanceStage (initRecord tid now d) 0) ∧
    (advanceStage (initRecord tid now d) 0).stage = 0 ∧
    (advanceStage (initRecord tid now d) 0).status = "Processing" := by
  refine ⟨?_, rfl, rfl⟩
  have hmut : mutationsByTime st0 st1 st2 st3 0 = 1 := by
    unfold mutationsByTime
    rw [if_pos h0]
  have hret : 0 < completionTime st0 st1 st2 st3 + RETENTION := by
    unfold completionTime RETENTION
    omega
  simp [registryListAt, registryAt, if_pos hret, hmut, get_status, regGet,
    stateAfter]

/-- Witness for C8 with the smallest stage time the code can draw (20 s). -/
theorem C8_submit_then_query_witness :
    0 < 20 ∧
      (get_status (registryListAt "t" 0 90 [] 20 25 20 25 0) "t"
          = some (advanceStage (initRecord "t" 0 []) 0) ∧
       (advanceStage (initRecord "t" 0 []) 0).stage = 0 ∧
       (advanceStage (initRecord "t" 0 []) 0).status = "Processing") :=
  ⟨by decide, C8_submit_then_query "t" 0 90 [] 20 25 20 25 (by decide)⟩

/-- Claim C6: attaching a subscriber registers it under the task id (the
entry is created when absent, and the subscriber is appended to the
existing list), and the subscriber is immediately sent exactly the current
registry snapshot when one exists and nothing otherwise; the attach itself
always succeeds, whether or not a record exists — in particular a
subscriber attaching between completion and eviction is sent the terminal
record. -/
theorem C6_connect_attaches_and_snapshots (reg : Registry) (h : Hub)
    (tid : String) (ws : Nat) :
    hubGet (connect reg h tid ws).1 tid = some ((hubGet h tid).getD [] ++ [ws]) ∧
    (connect reg h tid ws).2 = (regGet reg tid).toList := by
  cases hreg : regGet reg tid with
  | none => simp [connect, hreg, hubGet_hubSet]
  | some r => simp [connect, hreg, hubGet_hubSet]

/-- Claim C2 (code bug): with subscribers `[1, 2]` attached in that order
and the send to 1 failing, the broadcast removes 1 from the set but skips 2
— the list shifts under the running iterator — so the message is delivered
to nobody although 2 is a non-failing subscriber that remains in the set.
When no send fails, both subscribers receive the message. -/
theorem C2_broadcast_skips_after_failure :
    broadcast_to_task (fun w => w == 1) [("t", [1, 2])] "t"
        = ([("t", [2])], []) ∧
    broadcast_to_task (fun _ => false) [("t", [1, 2])] "t"
        = ([("t", [1, 2])], [1, 2]) := by
  decide

/-- Claim C5 (code bug): detaching a subscriber that is not in the task's
list — here, detaching 1 a second time while 2 is still attached — makes
`list.remove` raise `ValueError` (`none`) instead of being a no-op; only
when the id has no entry at all is the detach a silent no-op. -/
theorem C5_disconnect_absent_raises :
    disconnect [("t", [1, 2])] "t" 1 = some [("t", [2])] ∧
    disconnect [("t", [2])] "t" 1 = none ∧
    disconnect [] "t" 1 = some [] := by
  decide

/-- Claim C7 counterexample: the runner broadcasts the initial record
(line 82) and then re-broadcasts stage 0 from the first loop iteration
(line 100), so the first two broadcasts for the same id carry the same
stage index 0 — the broadcast stage sequence is `[0, 0, 1, 2, 3, 4]`, not
strictly increasing. -/
theorem C7_counterexample :
    (broadcastRecords "t" 0 90 []).map TaskRecord.stage = [0, 0, 1, 2, 3, 4] ∧
    ¬ List.Pairwise (· < ·) ((broadcastRecords "t" 0 90 []).map TaskRecord.stage) := by
  decide

/-- Claim C7 amended: for a single task id the broadcast stage indices are
non-decreasing, and strictly increasing from the second broadcast on (only
the initial broadcast and the first loop broadcast share an index). -/
theorem C7_broadcast_stages_sorted (tid : String) (now ct : Nat)
    (d : List (String × String)) :
    List.Pairwise (· ≤ ·) ((broadcastRecords tid now ct d).map TaskRecord.stage) ∧
    List.Pairwise (· < ·)
      (((broadcastRecords tid now ct d).map TaskRecord.stage).tail) := by
  have hrange : List.range 6 = [0, 1, 2, 3, 4, 5] := by decide
  have hmap : (broadcastRecords tid now ct d).map TaskRecord.stage
      = [0, 0, 1, 2, 3, 4] := by
    simp [broadcastRecords, hrange, stage_stateAfter]
  rw [hmap]
  exact ⟨by decide, by decide⟩

/-- Claim C9 counterexample: broadcasting to an id whose only subscriber
fails removes the subscriber but leaves the id's entry in the map as an
empty list, so the non-empty-sets invariant is not preserved by
`broadcast_to_task`. -/
theorem C9_counterexample :
    hubNonEmptyInv [("t", [1])] ∧
    (broadcast_to_task (fun w => w == 1) [("t", [1])] "t").1 = [("t", [])] ∧
    ¬ hubNonEmptyInv ((broadcast_to_task (fun w => w == 1) [("t", [1])] "t").1) := by
  decide

/-- Claim C9 amended: the non-empty-sets invariant is preserved by attach
(the entry gains the new subscriber) and by detach (which deletes the entry
when its list empties and otherwise stores the non-empty remainder); it is
not preserved by broadcast, which can leave an empty entry behind. -/
theorem C9_hub_inv_preserved (reg : Registry) (h h' : Hub) (tid : String)
    (ws : Nat) (hinv : hubNonEmptyInv h) :
    hubNonEmptyInv (connect reg h tid ws).1 ∧
    (disconnect h tid ws = some h' → hubNonEmptyInv h') := by
  constructor
  · have hne : (hubGet h tid).getD [] ++ [ws] ≠ [] := by simp
    cases hreg : regGet reg tid with
    | none =>
      simpa [connect, hreg] using hubNonEmptyInv_hubSet h tid _ hinv hne
    | some r =>
      simpa [connect, hreg] using hubNonEmptyInv_hubSet h tid _ hinv hne
  · intro hdis
    unfold disconnect at hdis
    split at hdis
    · injection hdis with hh
      subst hh
      exact hinv
    · split at hdis
      · exact Option.noConfusion hdis
      · split at hdis
        · injection hdis with hh
          subst hh
          exact hubNonEmptyInv_hubDel h tid hinv
        · injection hdis with hh
          subst hh
          exact hubNonEmptyInv_hubSet h tid _ hinv (by assumption)

/-- Witness for the amended C9 at a concrete hub. -/
theorem C9_hub_inv_preserved_witness :
    hubNonEmptyInv [("t", [1, 2])] ∧
      (hubNonEmptyInv (connect [] [("t", [1, 2])] "t" 1).1 ∧
       (disconnect [("t", [1, 2])] "t" 1 = some [("t", [2])] →
         hubNonEmptyInv [("t", [2])])) :=
  ⟨by decide, C9_hub_inv_preserved [] [("t", [1, 2])] [("t", [2])] "t" 1 (by decide)⟩
